import Mathlib

/-!
Verification of `process_timing.hpp` (namespace `timings`).

The embedding models:
* `std::ratio<n, d>` as a pair of raw integers; its reduced members
  `::num` / `::den` are recovered through `Rat.divInt`, whose
  normalisation (gcd reduction, sign moved to the numerator) is exactly
  the one `std::ratio` performs.
* a `std::chrono::duration<Rep, Period>` as its integer tick count
  together with its period; `duration_cast` multiplies by the exact
  rational conversion factor and truncates toward zero, which is the
  C++ integer-division semantics.
* `SplitTimeElements` tracks the successive values of the mutated
  `duration` variable by their exact rational value in seconds
  (`durVal`, `dur1` … `dur6`).  The C++ compound subtractions
  `duration -= …` only instantiate when the subtracted unit converts
  exactly into `Period`, so the value-level account coincides with the
  count-level one wherever the template compiles.
* the `ProcessTiming` stopwatch as an explicit state record; the
  `steady_clock` is modelled by passing the current instant (a
  nanosecond tick count, libstdc++'s `steady_clock` representation) to
  each operation, and monotonicity by a chain condition on event times.
-/

namespace timings

/-- A `std::ratio` with its raw template arguments: numerator `n` and
denominator `d`. -/
structure Ratio where
  n : Int
  d : Int
deriving DecidableEq

/-- The rational value `n / d` of a ratio, with `std::ratio`
normalisation. -/
def Ratio.q (r : Ratio) : ℚ := Rat.divInt r.n r.d

/-- The reduced member `std::ratio<n, d>::num`. -/
def Ratio.num (r : Ratio) : Int := (Rat.divInt r.n r.d).num

/-- The reduced member `std::ratio<n, d>::den`. -/
def Ratio.den (r : Ratio) : Int := ((Rat.divInt r.n r.d).den : Int)

/-- `timings::ratio_equal` (alias of `std::ratio_equal`): equality of the
reduced members. -/
def ratio_equal (R1 R2 : Ratio) : Bool :=
  R1.num == R2.num && R1.den == R2.den

/-- `timings::ratio_not_equal` (alias of `std::ratio_not_equal`). -/
def ratio_not_equal (R1 R2 : Ratio) : Bool :=
  !(ratio_equal R1 R2)

/-- `timings::ratio_less`: cross-multiplication on the reduced members,
`R1::num * R2::den < R2::num * R1::den`. -/
def ratio_less (R1 R2 : Ratio) : Bool :=
  decide (R1.num * R2.den < R2.num * R1.den)

/-- `timings::ratio_less_equal`: `!ratio_less<R2, R1>::value`. -/
def ratio_less_equal (R1 R2 : Ratio) : Bool :=
  !(ratio_less R2 R1)

/-- `timings::ratio_greater`: `ratio_less<R2, R1>::value`. -/
def ratio_greater (R1 R2 : Ratio) : Bool :=
  ratio_less R2 R1

/-- `timings::ratio_greater_equal`: `!ratio_less<R1, R2>::value`. -/
def ratio_greater_equal (R1 R2 : Ratio) : Bool :=
  !(ratio_less R1 R2)

/-- `timings::days::period = std::ratio<86400, 1>`. -/
def days_period : Ratio := ⟨86400, 1⟩

/-- `std::chrono::hours::period = std::ratio<3600, 1>`. -/
def hours_period : Ratio := ⟨3600, 1⟩

/-- `std::chrono::minutes::period = std::ratio<60, 1>`. -/
def minutes_period : Ratio := ⟨60, 1⟩

/-- `std::chrono::seconds::period = std::ratio<1, 1>`. -/
def seconds_period : Ratio := ⟨1, 1⟩

/-- `std::chrono::milliseconds::period = std::milli`. -/
def milliseconds_period : Ratio := ⟨1, 1000⟩

/-- `std::chrono::microseconds::period = std::micro`. -/
def microseconds_period : Ratio := ⟨1, 1000000⟩

/-- `std::chrono::nanoseconds::period = std::nano`. -/
def nanoseconds_period : Ratio := ⟨1, 1000000000⟩

/-- Truncation of a rational toward zero: the value of C++ integer
division applied to an exact rational quotient. -/
def ratTrunc (q : ℚ) : Int := Int.tdiv q.num (q.den : Int)

/-- `std::chrono::duration_cast` from a count `cnt` of period `src` to a
count of period `dst`: multiply by the exact conversion factor
`src / dst` and truncate toward zero. -/
def duration_cast (src dst : Ratio) (cnt : Int) : Int :=
  ratTrunc ((cnt : ℚ) * src.q / dst.q)

/-- The `timings::TimeElements` record; each field is the integer tick
count of the corresponding `std::chrono` duration member. -/
structure TimeElements where
  d : Int
  h : Int
  m : Int
  s : Int
  ms : Int
  us : Int
  ns : Int
deriving DecidableEq

/-- The value in seconds of the input `duration` argument of
`SplitTimeElements`. -/
def durVal (P : Ratio) (cnt : Int) : ℚ := (cnt : ℚ) * P.q

/-- `timeElements.d = duration_cast<days>(duration)`. -/
def dPart (P : Ratio) (cnt : Int) : Int :=
  ratTrunc (durVal P cnt / days_period.q)

/-- Value of `duration` after `duration -= timeElements.d`. -/
def dur1 (P : Ratio) (cnt : Int) : ℚ :=
  durVal P cnt - (dPart P cnt : ℚ) * days_period.q

/-- `timeElements.h = duration_cast<hours>(duration)`. -/
def hPart (P : Ratio) (cnt : Int) : Int :=
  ratTrunc (dur1 P cnt / hours_period.q)

/-- Value of `duration` after `duration -= timeElements.h`. -/
def dur2 (P : Ratio) (cnt : Int) : ℚ :=
  dur1 P cnt - (hPart P cnt : ℚ) * hours_period.q

/-- `timeElements.m = duration_cast<minutes>(duration)`. -/
def mPart (P : Ratio) (cnt : Int) : Int :=
  ratTrunc (dur2 P cnt / minutes_period.q)

/-- Value of `duration` after `duration -= timeElements.m`. -/
def dur3 (P : Ratio) (cnt : Int) : ℚ :=
  dur2 P cnt - (mPart P cnt : ℚ) * minutes_period.q

/-- `timeElements.s = duration_cast<seconds>(duration)`. -/
def sPart (P : Ratio) (cnt : Int) : Int :=
  ratTrunc (dur3 P cnt / seconds_period.q)

/-- Value of `duration` after `duration -= timeElements.s`. -/
def dur4 (P : Ratio) (cnt : Int) : ℚ :=
  dur3 P cnt - (sPart P cnt : ℚ) * seconds_period.q

/-- `timeElements.ms = duration_cast<milliseconds>(duration)`. -/
def msPart (P : Ratio) (cnt : Int) : Int :=
  ratTrunc (dur4 P cnt / milliseconds_period.q)

/-- Value of `duration` after `duration -= timeElements.ms`. -/
def dur5 (P : Ratio) (cnt : Int) : ℚ :=
  dur4 P cnt - (msPart P cnt : ℚ) * milliseconds_period.q

/-- `timeElements.us = duration_cast<microseconds>(duration)`. -/
def usPart (P : Ratio) (cnt : Int) : Int :=
  ratTrunc (dur5 P cnt / microseconds_period.q)

/-- Value of `duration` after `duration -= timeElements.us`. -/
def dur6 (P : Ratio) (cnt : Int) : ℚ :=
  dur5 P cnt - (usPart P cnt : ℚ) * microseconds_period.q

/-- `timeElements.ns = duration_cast<nanoseconds>(duration)`. -/
def nsPart (P : Ratio) (cnt : Int) : Int :=
  ratTrunc (dur6 P cnt / nanoseconds_period.q)

/-- `ProcessTiming::SplitTimeElements` on a duration given as a count
`cnt` of period `P`. -/
def SplitTimeElements (P : Ratio) (cnt : Int) : TimeElements :=
  ⟨dPart P cnt, hPart P cnt, mPart P cnt, sPart P cnt,
   msPart P cnt, usPart P cnt, nsPart P cnt⟩

/-- Left-pad with the fill character `'0'` to width `w`: the effect of
`stream << std::setw(w) << std::setfill('0')` on a (right-adjusted)
integer rendering. -/
def zfill (w : Nat) (s : String) : String :=
  String.mk (List.replicate (w - s.length) '0') ++ s

/-- The `activate` flag after the test `timeElements.d.count() > 0`. -/
def act_d (te : TimeElements) : Bool := decide (0 < te.d)

/-- The `activate` flag after the test on `timeElements.h`. -/
def act_h (te : TimeElements) : Bool := act_d te || decide (0 < te.h)

/-- The `activate` flag after the test on `timeElements.m`. -/
def act_m (te : TimeElements) : Bool := act_h te || decide (0 < te.m)

/-- The `activate` flag after the test on `timeElements.s`. -/
def act_s (te : TimeElements) : Bool := act_m te || decide (0 < te.s)

/-- The `activate` flag after the test on `timeElements.ms`. -/
def act_ms (te : TimeElements) : Bool := act_s te || decide (0 < te.ms)

/-- The `activate` flag after the test on `timeElements.us`. -/
def act_us (te : TimeElements) : Bool := act_ms te || decide (0 < te.us)

/-- The `activate` flag after the test on `timeElements.ns`. -/
def act_ns (te : TimeElements) : Bool := act_us te || decide (0 < te.ns)

/-- Contribution of the days unit to the stream. -/
def seg_d (P : Ratio) (te : TimeElements) : String :=
  if ratio_less_equal P days_period && act_d te
  then toString te.d ++ "d." else ""

/-- Contribution of the hours unit to the stream. -/
def seg_h (P : Ratio) (te : TimeElements) : String :=
  if ratio_less_equal P hours_period && act_h te
  then zfill 2 (toString te.h) ++ "h." else ""

/-- Contribution of the minutes unit to the stream. -/
def seg_m (P : Ratio) (te : TimeElements) : String :=
  if ratio_less_equal P minutes_period && act_m te
  then zfill 2 (toString te.m) ++ "m." else ""

/-- Contribution of the seconds unit to the stream. -/
def seg_s (P : Ratio) (te : TimeElements) : String :=
  if ratio_less_equal P seconds_period && act_s te
  then zfill 2 (toString te.s) ++ "s." else ""

/-- Contribution of the milliseconds unit to the stream. -/
def seg_ms (P : Ratio) (te : TimeElements) : String :=
  if ratio_less_equal P milliseconds_period && act_ms te
  then zfill 3 (toString te.ms) ++ "ms." else ""

/-- Contribution of the microseconds unit to the stream. -/
def seg_us (P : Ratio) (te : TimeElements) : String :=
  if ratio_less_equal P microseconds_period && act_us te
  then zfill 3 (toString te.us) ++ "us." else ""

/-- Contribution of the nanoseconds unit to the stream. -/
def seg_ns (P : Ratio) (te : TimeElements) : String :=
  if ratio_less_equal P nanoseconds_period && act_ns te
  then zfill 3 (toString te.ns) ++ "ns." else ""

/-- `ProcessTiming::TimeElementsToString<Period>`: the stream contents
after the seven conditional insertions, in coarse-to-fine order. -/
def TimeElementsToString (P : Ratio) (te : TimeElements) : String :=
  seg_d P te ++ seg_h P te ++ seg_m P te ++ seg_s P te ++
  seg_ms P te ++ seg_us P te ++ seg_ns P te

/-- `ProcessTiming::TimeToString` on a duration given as a count `cnt`
of period `P`: split, then render with `P` as the origin period. -/
def TimeToString (P : Ratio) (cnt : Int) : String :=
  TimeElementsToString P (SplitTimeElements P cnt)

/-- The seven unit counts of a `TimeElements`, indexed coarse-to-fine:
0 ↦ days, 1 ↦ hours, 2 ↦ minutes, 3 ↦ seconds, 4 ↦ milliseconds,
5 ↦ microseconds, 6 ↦ nanoseconds. -/
def TimeElements.count (te : TimeElements) : Fin 7 → Int
  | ⟨0, _⟩ => te.d
  | ⟨1, _⟩ => te.h
  | ⟨2, _⟩ => te.m
  | ⟨3, _⟩ => te.s
  | ⟨4, _⟩ => te.ms
  | ⟨5, _⟩ => te.us
  | ⟨6, _⟩ => te.ns

/-- The period of each unit, indexed coarse-to-fine. -/
def unit_period : Fin 7 → Ratio
  | ⟨0, _⟩ => days_period
  | ⟨1, _⟩ => hours_period
  | ⟨2, _⟩ => minutes_period
  | ⟨3, _⟩ => seconds_period
  | ⟨4, _⟩ => milliseconds_period
  | ⟨5, _⟩ => microseconds_period
  | ⟨6, _⟩ => nanoseconds_period

/-- A unit is a candidate for printing when the origin period `P` is no
coarser than the unit's period: the guard
`ratio_less_equal<Period, unit::period>::value` of the insertion. -/
def candidate (P : Ratio) (i : Fin 7) : Bool :=
  ratio_less_equal P (unit_period i)

/-- The `activate` flag as read by unit `i`'s insertion guard. -/
def actAt (te : TimeElements) : Fin 7 → Bool
  | ⟨0, _⟩ => act_d te
  | ⟨1, _⟩ => act_h te
  | ⟨2, _⟩ => act_m te
  | ⟨3, _⟩ => act_s te
  | ⟨4, _⟩ => act_ms te
  | ⟨5, _⟩ => act_us te
  | ⟨6, _⟩ => act_ns te

/-- The substring unit `i` contributes to `TimeElementsToString`. -/
def segment (P : Ratio) (te : TimeElements) : Fin 7 → String
  | ⟨0, _⟩ => seg_d P te
  | ⟨1, _⟩ => seg_h P te
  | ⟨2, _⟩ => seg_m P te
  | ⟨3, _⟩ => seg_s P te
  | ⟨4, _⟩ => seg_ms P te
  | ⟨5, _⟩ => seg_us P te
  | ⟨6, _⟩ => seg_ns P te

/-- The `timings::ProcessTiming` stopwatch state: the `_ongoing` flag
and the two stored `steady_clock` time points, as nanosecond tick
counts. -/
structure ProcessTiming where
  ongoing : Bool
  startTime : Int
  endTime : Int
deriving DecidableEq

namespace ProcessTiming

/-- `ProcessTiming::start()` at clock reading `now`. -/
def start (now : Int) (_pt : ProcessTiming) : ProcessTiming :=
  ⟨true, now, now⟩

/-- The constructor `ProcessTiming()` at clock reading `now`: it calls
`start()`. -/
def construct (now : Int) : ProcessTiming :=
  start now ⟨true, now, now⟩

/-- `ProcessTiming::stop()` at clock reading `now`. -/
def stop (now : Int) (pt : ProcessTiming) : ProcessTiming :=
  ⟨false, pt.startTime, now⟩

/-- `ProcessTiming::getStartTime()`. -/
def getStartTime (pt : ProcessTiming) : Int := pt.startTime

/-- `ProcessTiming::getEndTime()` at clock reading `now`. -/
def getEndTime (now : Int) (pt : ProcessTiming) : Int :=
  if pt.ongoing then now else pt.endTime

/-- `ProcessTiming::isRunning()`. -/
def isRunning (pt : ProcessTiming) : Bool := pt.ongoing

/-- `ProcessTiming::elapsed<Rep, Period>()` at clock reading `now`,
returning the tick count of the result duration of period `P`. -/
def elapsed (P : Ratio) (now : Int) (pt : ProcessTiming) : Int :=
  if pt.ongoing then duration_cast nanoseconds_period P (now - pt.startTime)
  else duration_cast nanoseconds_period P (pt.endTime - pt.startTime)

/-- `ProcessTiming::to_string<Rep, Period>()` at clock reading `now`. -/
def to_string (P : Ratio) (now : Int) (pt : ProcessTiming) : String :=
  TimeToString P (elapsed P now pt)

end ProcessTiming

/-- An external event acting on the stopwatch: a `start()` or `stop()`
call, tagged with the `steady_clock` reading it observes. -/
inductive StopwatchEvent where
  | startEv : Int → StopwatchEvent
  | stopEv : Int → StopwatchEvent
deriving DecidableEq

/-- The clock reading an event observes. -/
def eventTime : StopwatchEvent → Int
  | .startEv t => t
  | .stopEv t => t

/-- Apply one event to the stopwatch state. -/
def applyEvent (pt : ProcessTiming) : StopwatchEvent → ProcessTiming
  | .startEv t => ProcessTiming.start t pt
  | .stopEv t => ProcessTiming.stop t pt

/-- Run a sequence of events on the stopwatch state. -/
def runEvents (pt : ProcessTiming) (evs : List StopwatchEvent) : ProcessTiming :=
  evs.foldl applyEvent pt

/-- Reassembling a `TimeElements`: the sum of each field times its
unit's duration, as an exact value in seconds. -/
def reassemble (te : TimeElements) : ℚ :=
  (te.d : ℚ) * days_period.q + (te.h : ℚ) * hours_period.q +
  (te.m : ℚ) * minutes_period.q + (te.s : ℚ) * seconds_period.q +
  (te.ms : ℚ) * milliseconds_period.q + (te.us : ℚ) * microseconds_period.q +
  (te.ns : ℚ) * nanoseconds_period.q

lemma days_period_q : days_period.q = 86400 := by
  norm_num [days_period, Ratio.q, Rat.divInt_eq_div]

lemma hours_period_q : hours_period.q = 3600 := by
  norm_num [hours_period, Ratio.q, Rat.divInt_eq_div]

lemma minutes_period_q : minutes_period.q = 60 := by
  norm_num [minutes_period, Ratio.q, Rat.divInt_eq_div]

lemma seconds_period_q : seconds_period.q = 1 := by
  norm_num [seconds_period, Ratio.q, Rat.divInt_eq_div]

lemma milliseconds_period_q : milliseconds_period.q = 1 / 1000 := by
  norm_num [milliseconds_period, Ratio.q, Rat.divInt_eq_div]

lemma microseconds_period_q : microseconds_period.q = 1 / 1000000 := by
  norm_num [microseconds_period, Ratio.q, Rat.divInt_eq_div]

lemma nanoseconds_period_q : nanoseconds_period.q = 1 / 1000000000 := by
  norm_num [nanoseconds_period, Ratio.q, Rat.divInt_eq_div]

lemma Ratio.q_pos {r : Ratio} (hn : 0 < r.n) (hd : 0 < r.d) : 0 < r.q := by
  rw [Ratio.q, Rat.divInt_eq_div]
  exact div_pos (by exact_mod_cast hn) (by exact_mod_cast hd)

@[simp] lemma ratTrunc_zero : ratTrunc 0 = 0 := by decide

lemma ratTrunc_eq_floor {q : ℚ} (h : 0 ≤ q) : ratTrunc q = ⌊q⌋ := by
  rw [ratTrunc, Int.tdiv_eq_ediv (Rat.num_nonneg.mpr h) (Int.ofNat_nonneg _)]
  conv_rhs => rw [← Rat.num_div_den q]
  rw [Rat.floor_intCast_div_natCast]

lemma ratTrunc_nonneg {q : ℚ} (h : 0 ≤ q) : 0 ≤ ratTrunc q := by
  rw [ratTrunc_eq_floor h]
  exact Int.floor_nonneg.mpr h

lemma rem_fract {v u : ℚ} (hv : 0 ≤ v) (hu : 0 < u) :
    v - (ratTrunc (v / u) : ℚ) * u = u * Int.fract (v / u) := by
  rw [ratTrunc_eq_floor (div_nonneg hv hu.le), Int.fract]
  field_simp
  ring

lemma rem_nonneg {v u : ℚ} (hv : 0 ≤ v) (hu : 0 < u) :
    0 ≤ v - (ratTrunc (v / u) : ℚ) * u := by
  rw [rem_fract hv hu]
  exact mul_nonneg hu.le (Int.fract_nonneg _)

lemma rem_lt {v u : ℚ} (hv : 0 ≤ v) (hu : 0 < u) :
    v - (ratTrunc (v / u) : ℚ) * u < u := by
  rw [rem_fract hv hu]
  calc u * Int.fract (v / u) < u * 1 :=
        mul_lt_mul_of_pos_left (Int.fract_lt_one _) hu
    _ = u := mul_one u

lemma split_zero (P : Ratio) : SplitTimeElements P 0 = ⟨0, 0, 0, 0, 0, 0, 0⟩ := by
  simp [SplitTimeElements, dPart, hPart, mPart, sPart, msPart, usPart, nsPart,
        dur1, dur2, dur3, dur4, dur5, dur6, durVal]

/-- C5: converting a duration of exactly zero to a string produces the
empty string, for every resolution period; hence `to_string` of a
stopwatch whose elapsed duration is zero is empty. -/
theorem c5_zero_duration_renders_empty :
    ∀ P : Ratio, TimeToString P 0 = "" ∧
      ∀ (now : Int) (pt : ProcessTiming),
        ProcessTiming.elapsed P now pt = 0 →
        ProcessTiming.to_string P now pt = "" := by
  intro P
  have hz : TimeToString P 0 = "" := by
    rw [TimeToString, split_zero]
    simp [TimeElementsToString, seg_d, seg_h, seg_m, seg_s, seg_ms, seg_us, seg_ns,
          act_d, act_h, act_m, act_s, act_ms, act_us, act_ns]
  refine ⟨hz, fun now pt h => ?_⟩
  rw [ProcessTiming.to_string, h, hz]

/-- Witness for C5 at a concrete stopped stopwatch with zero elapsed
time. -/
theorem c5_witness :
    ProcessTiming.elapsed nanoseconds_period 5 ⟨false, 3, 3⟩ = 0 ∧
    ProcessTiming.to_string nanoseconds_period 5 ⟨false, 3, 3⟩ = "" :=
  ⟨by with_unfolding_all rfl,
   (c5_zero_duration_renders_empty nanoseconds_period).2 5 ⟨false, 3, 3⟩
     (by with_unfolding_all rfl)⟩

/-- C8: after `stop()`, neither `elapsed()` nor `getEndTime()` samples
the clock: their results at any two clock readings coincide. -/
theorem c8_stopped_queries_deterministic :
    ∀ (pt : ProcessTiming) (t : Int) (P : Ratio) (now1 now2 : Int),
      ProcessTiming.elapsed P now1 (ProcessTiming.stop t pt) =
        ProcessTiming.elapsed P now2 (ProcessTiming.stop t pt) ∧
      ProcessTiming.getEndTime now1 (ProcessTiming.stop t pt) =
        ProcessTiming.getEndTime now2 (ProcessTiming.stop t pt) := by
  intro pt t P now1 now2
  exact ⟨by simp [ProcessTiming.elapsed, ProcessTiming.stop],
         by simp [ProcessTiming.getEndTime, ProcessTiming.stop]⟩

/-- C9: 90061500250125 nanoseconds at nanosecond resolution renders as
the exact string with unpadded days, width-2 h/m/s and width-3
ms/us/ns, each unit suffixed by its label and a period. -/
theorem c9_concrete_rendering :
    TimeToString nanoseconds_period 90061500250125 =
      "1d.01h.01m.01s.500ms.250us.125ns." := by
  with_unfolding_all rfl

/-- C10: a strictly negative count never sets the activation flag (the
code tests `count() > 0`): if every field is nonpositive the rendered
string is empty, for every origin period. -/
theorem c10_nonpositive_counts_render_empty :
    ∀ (te : TimeElements) (P : Ratio),
      te.d ≤ 0 → te.h ≤ 0 → te.m ≤ 0 → te.s ≤ 0 →
      te.ms ≤ 0 → te.us ≤ 0 → te.ns ≤ 0 →
      TimeElementsToString P te = "" := by
  intro te P hd hh hm hs hms hus hns
  simp [TimeElementsToString, seg_d, seg_h, seg_m, seg_s, seg_ms, seg_us, seg_ns,
        act_d, act_h, act_m, act_s, act_ms, act_us, act_ns,
        not_lt.mpr hd, not_lt.mpr hh, not_lt.mpr hm, not_lt.mpr hs,
        not_lt.mpr hms, not_lt.mpr hus, not_lt.mpr hns]

lemma append_ne_empty (s t : String) (ht : t.length ≠ 0) : s ++ t ≠ "" := by
  intro h
  apply ht
  have hlen := congrArg String.length h
  rw [String.length_append] at hlen
  have hz : String.length "" = 0 := rfl
  omega

lemma actAt_of_count_pos {te : TimeElements} {i : Fin 7}
    (h : 0 < te.count i) : actAt te i = true := by
  fin_cases i <;>
    simp_all [TimeElements.count, actAt, act_d, act_h, act_m, act_s,
              act_ms, act_us, act_ns]

lemma actAt_mono {te : TimeElements} {i j : Fin 7} (hij : i ≤ j)
    (h : actAt te i = true) : actAt te j = true := by
  fin_cases i <;> fin_cases j <;>
    first
    | exact absurd hij (by decide)
    | simp_all [actAt, act_d, act_h, act_m, act_s, act_ms, act_us, act_ns]

lemma segment_ne_empty {P : Ratio} {te : TimeElements} {j : Fin 7}
    (hc : candidate P j = true) (ha : actAt te j = true) :
    segment P te j ≠ "" := by
  fin_cases j <;>
    · simp_all [candidate, unit_period, actAt, segment, seg_d, seg_h, seg_m,
                seg_s, seg_ms, seg_us, seg_ns]
      exact append_ne_empty _ _ (by decide)

/-- C3 as stated is false: a strictly negative count is non-zero yet
does not set the activation flag.  Here hours = −1, the origin period
is seconds, minutes is a candidate at or after the non-zero unit, and
still nothing is printed for minutes. -/
theorem c3_counterexample :
    TimeElements.count ⟨0, -1, 0, 0, 0, 0, 0⟩ (1 : Fin 7) ≠ 0 ∧
    (1 : Fin 7) ≤ (2 : Fin 7) ∧
    candidate seconds_period (2 : Fin 7) = true ∧
    segment seconds_period ⟨0, -1, 0, 0, 0, 0, 0⟩ (2 : Fin 7) = "" :=
  ⟨by decide, by decide, by decide, by decide⟩

/-- C3 (amended): once any unit in coarse-to-fine order has a strictly
positive count, the activation flag is set, and every unit from that
point onward that is also a candidate is printed even if its count is
zero. -/
theorem c3_activation_prints_candidates :
    ∀ (te : TimeElements) (P : Ratio) (i j : Fin 7), i ≤ j →
      0 < te.count i → candidate P j = true → segment P te j ≠ "" := by
  intro te P i j hij hcnt hcand
  exact segment_ne_empty hcand (actAt_mono hij (actAt_of_count_pos hcnt))

/-- Witness for C3: hours = 1 activates, and seconds (count 5, a
candidate at seconds resolution) is printed. -/
theorem c3_witness :
    (1 : Fin 7) ≤ (3 : Fin 7) ∧
    0 < TimeElements.count ⟨0, 1, 0, 5, 0, 0, 0⟩ (1 : Fin 7) ∧
    candidate seconds_period (3 : Fin 7) = true ∧
    segment seconds_period ⟨0, 1, 0, 5, 0, 0, 0⟩ (3 : Fin 7) ≠ "" :=
  ⟨by decide, by decide, by decide,
   c3_activation_prints_candidates ⟨0, 1, 0, 5, 0, 0, 0⟩ seconds_period 1 3
     (by decide) (by decide) (by decide)⟩

/-- C4: a unit finer than the origin resolution is never printed: when
the candidacy guard `ratio_less_equal<Period, unit::period>` is false
the unit contributes nothing, regardless of counts or activation. -/
theorem c4_only_candidates_printed :
    ∀ (te : TimeElements) (P : Ratio) (j : Fin 7),
      candidate P j = false → segment P te j = "" := by
  intro te P j hc
  fin_cases j <;>
    simp_all [candidate, unit_period, segment, seg_d, seg_h, seg_m, seg_s,
              seg_ms, seg_us, seg_ns]

/-- Witness for C4: at seconds resolution the microseconds unit is not
a candidate and prints nothing even though every count is positive. -/
theorem c4_witness :
    candidate seconds_period (5 : Fin 7) = false ∧
    segment seconds_period ⟨1, 2, 3, 4, 5, 6, 7⟩ (5 : Fin 7) = "" :=
  ⟨by decide,
   c4_only_candidates_printed ⟨1, 2, 3, 4, 5, 6, 7⟩ seconds_period 5 (by decide)⟩

lemma Ratio.q_lt_iff {r1 r2 : Ratio} (hd1 : 0 < r1.d) (hd2 : 0 < r2.d) :
    r1.q < r2.q ↔ r1.n * r2.d < r2.n * r1.d := by
  rw [Ratio.q, Ratio.q, Rat.divInt_eq_div, Rat.divInt_eq_div,
      div_lt_div_iff₀ (by exact_mod_cast hd1) (by exact_mod_cast hd2)]
  exact_mod_cast Iff.rfl

lemma Ratio.q_eq_iff {r1 r2 : Ratio} (hd1 : 0 < r1.d) (hd2 : 0 < r2.d) :
    r1.q = r2.q ↔ r1.n * r2.d = r2.n * r1.d := by
  rw [Ratio.q, Ratio.q, Rat.divInt_eq_div, Rat.divInt_eq_div,
      div_eq_div_iff (by exact_mod_cast hd1.ne') (by exact_mod_cast hd2.ne')]
  exact_mod_cast Iff.rfl

lemma rat_lt_num_den (q r : ℚ) : q < r ↔ q.num * r.den < r.num * q.den := by
  conv_lhs => rw [← Rat.num_div_den q, ← Rat.num_div_den r]
  rw [div_lt_div_iff₀ (by exact_mod_cast q.den_pos) (by exact_mod_cast r.den_pos)]
  exact_mod_cast Iff.rfl

lemma ratio_less_iff (R1 R2 : Ratio) : ratio_less R1 R2 = true ↔ R1.q < R2.q := by
  rw [ratio_less, decide_eq_true_eq, rat_lt_num_den]
  rw [Ratio.num, Ratio.num, Ratio.den, Ratio.den, Ratio.q, Ratio.q]

lemma ratio_equal_iff (R1 R2 : Ratio) : ratio_equal R1 R2 = true ↔ R1.q = R2.q := by
  rw [ratio_equal, Bool.and_eq_true, beq_iff_eq, beq_iff_eq,
      Ratio.num, Ratio.num, Ratio.den, Ratio.den, Ratio.q, Ratio.q]
  constructor
  · intro h
    exact Rat.ext h.1 (by exact_mod_cast h.2)
  · intro h
    rw [h]
    exact ⟨rfl, rfl⟩

/-- C6: on positive rational periods all six comparators agree with the
mathematical order via cross-multiplication, and the derived forms
coincide with negation/swap combinations of the less-than primitive. -/
theorem c6_ratio_comparators (n1 d1 n2 d2 : Int)
    (hn1 : 0 < n1) (hd1 : 0 < d1) (hn2 : 0 < n2) (hd2 : 0 < d2) :
    (ratio_less ⟨n1, d1⟩ ⟨n2, d2⟩ = true ↔ n1 * d2 < n2 * d1) ∧
    (ratio_equal ⟨n1, d1⟩ ⟨n2, d2⟩ = true ↔ n1 * d2 = n2 * d1) ∧
    (ratio_not_equal ⟨n1, d1⟩ ⟨n2, d2⟩ = true ↔ n1 * d2 ≠ n2 * d1) ∧
    (ratio_less_equal ⟨n1, d1⟩ ⟨n2, d2⟩ = true ↔ n1 * d2 ≤ n2 * d1) ∧
    (ratio_greater ⟨n1, d1⟩ ⟨n2, d2⟩ = true ↔ n2 * d1 < n1 * d2) ∧
    (ratio_greater_equal ⟨n1, d1⟩ ⟨n2, d2⟩ = true ↔ n2 * d1 ≤ n1 * d2) ∧
    ratio_less_equal ⟨n1, d1⟩ ⟨n2, d2⟩ = !ratio_less ⟨n2, d2⟩ ⟨n1, d1⟩ ∧
    ratio_greater ⟨n1, d1⟩ ⟨n2, d2⟩ = ratio_less ⟨n2, d2⟩ ⟨n1, d1⟩ ∧
    ratio_greater_equal ⟨n1, d1⟩ ⟨n2, d2⟩ = !ratio_less ⟨n1, d1⟩ ⟨n2, d2⟩ ∧
    ratio_equal ⟨n1, d1⟩ ⟨n2, d2⟩ =
      (!ratio_less ⟨n1, d1⟩ ⟨n2, d2⟩ && !ratio_less ⟨n2, d2⟩ ⟨n1, d1⟩) ∧
    ratio_not_equal ⟨n1, d1⟩ ⟨n2, d2⟩ =
      (ratio_less ⟨n1, d1⟩ ⟨n2, d2⟩ || ratio_less ⟨n2, d2⟩ ⟨n1, d1⟩) := by
  have hlt : ratio_less ⟨n1, d1⟩ ⟨n2, d2⟩ = true ↔ n1 * d2 < n2 * d1 :=
    (ratio_less_iff _ _).trans (Ratio.q_lt_iff hd1 hd2)
  have hgt : ratio_less ⟨n2, d2⟩ ⟨n1, d1⟩ = true ↔ n2 * d1 < n1 * d2 :=
    (ratio_less_iff _ _).trans (Ratio.q_lt_iff hd2 hd1)
  have heq : ratio_equal ⟨n1, d1⟩ ⟨n2, d2⟩ = true ↔ n1 * d2 = n2 * d1 :=
    (ratio_equal_iff _ _).trans (Ratio.q_eq_iff hd1 hd2)
  refine ⟨hlt, heq, ?_, ?_, hgt, ?_, rfl, rfl, rfl, ?_, ?_⟩
  · rw [ratio_not_equal, Bool.not_eq_true', ← Bool.not_eq_true, heq]
  · rw [ratio_less_equal, Bool.not_eq_true', ← Bool.not_eq_true, hgt]
    omega
  · rw [ratio_greater_equal, Bool.not_eq_true', ← Bool.not_eq_true, hlt]
    omega
  · rw [Bool.eq_iff_iff, heq, Bool.and_eq_true, Bool.not_eq_true', Bool.not_eq_true']
    rw [← Bool.not_eq_true, ← Bool.not_eq_true, hlt, hgt]
    omega
  · rw [Bool.eq_iff_iff, ratio_not_equal, Bool.not_eq_true', ← Bool.not_eq_true, heq,
        Bool.or_eq_true, hlt, hgt]
    omega

/-- Witness for C6: milliseconds versus seconds. -/
theorem c6_witness :
    ratio_less ⟨1, 1000⟩ ⟨1, 1⟩ = true ↔ (1 * 1 : Int) < 1 * 1000 :=
  (c6_ratio_comparators 1 1000 1 1 (by decide) (by decide) (by decide)
    (by decide)).1

lemma ratTrunc_div_lt {v u : ℚ} {B : Int} (hv : 0 ≤ v) (hu : 0 < u)
    (hB : v < (B : ℚ) * u) : ratTrunc (v / u) < B := by
  rw [ratTrunc_eq_floor (div_nonneg hv hu.le), Int.floor_lt, div_lt_iff₀ hu]
  exact hB

lemma dur1_nonneg {P : Ratio} {cnt : Int} (h : 0 ≤ durVal P cnt) :
    0 ≤ dur1 P cnt := by
  unfold dur1 dPart
  rw [days_period_q]
  exact rem_nonneg h (by norm_num)

lemma dur1_lt {P : Ratio} {cnt : Int} (h : 0 ≤ durVal P cnt) :
    dur1 P cnt < 86400 := by
  unfold dur1 dPart
  rw [days_period_q]
  exact rem_lt h (by norm_num)

lemma dur2_nonneg {P : Ratio} {cnt : Int} (h : 0 ≤ dur1 P cnt) :
    0 ≤ dur2 P cnt := by
  unfold dur2 hPart
  rw [hours_period_q]
  exact rem_nonneg h (by norm_num)

lemma dur2_lt {P : Ratio} {cnt : Int} (h : 0 ≤ dur1 P cnt) :
    dur2 P cnt < 3600 := by
  unfold dur2 hPart
  rw [hours_period_q]
  exact rem_lt h (by norm_num)

lemma dur3_nonneg {P : Ratio} {cnt : Int} (h : 0 ≤ dur2 P cnt) :
    0 ≤ dur3 P cnt := by
  unfold dur3 mPart
  rw [minutes_period_q]
  exact rem_nonneg h (by norm_num)

lemma dur3_lt {P : Ratio} {cnt : Int} (h : 0 ≤ dur2 P cnt) :
    dur3 P cnt < 60 := by
  unfold dur3 mPart
  rw [minutes_period_q]
  exact rem_lt h (by norm_num)

lemma dur4_nonneg {P : Ratio} {cnt : Int} (h : 0 ≤ dur3 P cnt) :
    0 ≤ dur4 P cnt := by
  unfold dur4 sPart
  rw [seconds_period_q]
  exact rem_nonneg h (by norm_num)

lemma dur4_lt {P : Ratio} {cnt : Int} (h : 0 ≤ dur3 P cnt) :
    dur4 P cnt < 1 := by
  unfold dur4 sPart
  rw [seconds_period_q]
  exact rem_lt h (by norm_num)

lemma dur5_nonneg {P : Ratio} {cnt : Int} (h : 0 ≤ dur4 P cnt) :
    0 ≤ dur5 P cnt := by
  unfold dur5 msPart
  rw [milliseconds_period_q]
  exact rem_nonneg h (by norm_num)

lemma dur5_lt {P : Ratio} {cnt : Int} (h : 0 ≤ dur4 P cnt) :
    dur5 P cnt < 1 / 1000 := by
  unfold dur5 msPart
  rw [milliseconds_period_q]
  exact rem_lt h (by norm_num)

lemma dur6_nonneg {P : Ratio} {cnt : Int} (h : 0 ≤ dur5 P cnt) :
    0 ≤ dur6 P cnt := by
  unfold dur6 usPart
  rw [microseconds_period_q]
  exact rem_nonneg h (by norm_num)

lemma dur6_lt {P : Ratio} {cnt : Int} (h : 0 ≤ dur5 P cnt) :
    dur6 P cnt < 1 / 1000000 := by
  unfold dur6 usPart
  rw [microseconds_period_q]
  exact rem_lt h (by norm_num)

lemma dPart_nonneg {P : Ratio} {cnt : Int} (h : 0 ≤ durVal P cnt) :
    0 ≤ dPart P cnt := by
  unfold dPart
  rw [days_period_q]
  exact ratTrunc_nonneg (div_nonneg h (by norm_num))

lemma hPart_nonneg {P : Ratio} {cnt : Int} (h : 0 ≤ dur1 P cnt) :
    0 ≤ hPart P cnt := by
  unfold hPart
  rw [hours_period_q]
  exact ratTrunc_nonneg (div_nonneg h (by norm_num))

lemma hPart_lt {P : Ratio} {cnt : Int} (h0 : 0 ≤ dur1 P cnt)
    (h1 : dur1 P cnt < 86400) : hPart P cnt < 24 := by
  unfold hPart
  rw [hours_period_q]
  exact ratTrunc_div_lt h0 (by norm_num) (lt_of_lt_of_le h1 (by norm_num))

lemma mPart_nonneg {P : Ratio} {cnt : Int} (h : 0 ≤ dur2 P cnt) :
    0 ≤ mPart P cnt := by
  unfold mPart
  rw [minutes_period_q]
  exact ratTrunc_nonneg (div_nonneg h (by norm_num))

lemma mPart_lt {P : Ratio} {cnt : Int} (h0 : 0 ≤ dur2 P cnt)
    (h1 : dur2 P cnt < 3600) : mPart P cnt < 60 := by
  unfold mPart
  rw [minutes_period_q]
  exact ratTrunc_div_lt h0 (by norm_num) (lt_of_lt_of_le h1 (by norm_num))

lemma sPart_nonneg {P : Ratio} {cnt : Int} (h : 0 ≤ dur3 P cnt) :
    0 ≤ sPart P cnt := by
  unfold sPart
  rw [seconds_period_q]
  exact ratTrunc_nonneg (div_nonneg h (by norm_num))

lemma sPart_lt {P : Ratio} {cnt : Int} (h0 : 0 ≤ dur3 P cnt)
    (h1 : dur3 P cnt < 60) : sPart P cnt < 60 := by
  unfold sPart
  rw [seconds_period_q]
  exact ratTrunc_div_lt h0 (by norm_num) (lt_of_lt_of_le h1 (by norm_num))

lemma msPart_nonneg {P : Ratio} {cnt : Int} (h : 0 ≤ dur4 P cnt) :
    0 ≤ msPart P cnt := by
  unfold msPart
  rw [milliseconds_period_q]
  exact ratTrunc_nonneg (div_nonneg h (by norm_num))

lemma msPart_lt {P : Ratio} {cnt : Int} (h0 : 0 ≤ dur4 P cnt)
    (h1 : dur4 P cnt < 1) : msPart P cnt < 1000 := by
  unfold msPart
  rw [milliseconds_period_q]
  exact ratTrunc_div_lt h0 (by norm_num) (lt_of_lt_of_le h1 (by norm_num))

lemma usPart_nonneg {P : Ratio} {cnt : Int} (h : 0 ≤ dur5 P cnt) :
    0 ≤ usPart P cnt := by
  unfold usPart
  rw [microseconds_period_q]
  exact ratTrunc_nonneg (div_nonneg h (by norm_num))

lemma usPart_lt {P : Ratio} {cnt : Int} (h0 : 0 ≤ dur5 P cnt)
    (h1 : dur5 P cnt < 1 / 1000) : usPart P cnt < 1000 := by
  unfold usPart
  rw [microseconds_period_q]
  exact ratTrunc_div_lt h0 (by norm_num) (lt_of_lt_of_le h1 (by norm_num))

lemma nsPart_nonneg {P : Ratio} {cnt : Int} (h : 0 ≤ dur6 P cnt) :
    0 ≤ nsPart P cnt := by
  unfold nsPart
  rw [nanoseconds_period_q]
  exact ratTrunc_nonneg (div_nonneg h (by norm_num))

lemma nsPart_lt {P : Ratio} {cnt : Int} (h0 : 0 ≤ dur6 P cnt)
    (h1 : dur6 P cnt < 1 / 1000000) : nsPart P cnt < 1000 := by
  unfold nsPart
  rw [nanoseconds_period_q]
  exact ratTrunc_div_lt h0 (by norm_num) (lt_of_lt_of_le h1 (by norm_num))

/-- C2: for a non-negative input duration of positive period, the
decomposed fields satisfy hours ∈ [0,24), minutes ∈ [0,60),
seconds ∈ [0,60), ms/us/ns ∈ [0,1000), and days is non-negative. -/
theorem c2_field_bounds (P : Ratio) (cnt : Int)
    (hn : 0 < P.n) (hd : 0 < P.d) (hcnt : 0 ≤ cnt) :
    0 ≤ (SplitTimeElements P cnt).d ∧
    (0 ≤ (SplitTimeElements P cnt).h ∧ (SplitTimeElements P cnt).h < 24) ∧
    (0 ≤ (SplitTimeElements P cnt).m ∧ (SplitTimeElements P cnt).m < 60) ∧
    (0 ≤ (SplitTimeElements P cnt).s ∧ (SplitTimeElements P cnt).s < 60) ∧
    (0 ≤ (SplitTimeElements P cnt).ms ∧ (SplitTimeElements P cnt).ms < 1000) ∧
    (0 ≤ (SplitTimeElements P cnt).us ∧ (SplitTimeElements P cnt).us < 1000) ∧
    (0 ≤ (SplitTimeElements P cnt).ns ∧ (SplitTimeElements P cnt).ns < 1000) := by
  have h0 : 0 ≤ durVal P cnt :=
    mul_nonneg (by exact_mod_cast hcnt) (Ratio.q_pos hn hd).le
  have h1 := dur1_nonneg h0
  have h1l := dur1_lt h0
  have h2 := dur2_nonneg h1
  have h2l := dur2_lt h1
  have h3 := dur3_nonneg h2
  have h3l := dur3_lt h2
  have h4 := dur4_nonneg h3
  have h4l := dur4_lt h3
  have h5 := dur5_nonneg h4
  have h5l := dur5_lt h4
  have h6 := dur6_nonneg h5
  have h6l := dur6_lt h5
  exact ⟨dPart_nonneg h0, ⟨hPart_nonneg h1, hPart_lt h1 h1l⟩,
         ⟨mPart_nonneg h2, mPart_lt h2 h2l⟩, ⟨sPart_nonneg h3, sPart_lt h3 h3l⟩,
         ⟨msPart_nonneg h4, msPart_lt h4 h4l⟩, ⟨usPart_nonneg h5, usPart_lt h5 h5l⟩,
         ⟨nsPart_nonneg h6, nsPart_lt h6 h6l⟩⟩

/-- Witness for C2 at 3661 seconds. -/
theorem c2_witness :
    (0 : Int) < 1 ∧ (0 : Int) ≤ 3661 ∧
    (0 ≤ (SplitTimeElements seconds_period 3661).h ∧
      (SplitTimeElements seconds_period 3661).h < 24) :=
  ⟨by decide, by decide,
   (c2_field_bounds seconds_period 3661 (by decide) (by decide) (by decide)).2.1⟩

/-- C1: reassembling the split of a non-negative duration of positive
period — summing each field times its unit's duration — equals the
input truncated to nanosecond resolution. -/
theorem c1_split_reassembles (P : Ratio) (cnt : Int)
    (hn : 0 < P.n) (hd : 0 < P.d) (hcnt : 0 ≤ cnt) :
    reassemble (SplitTimeElements P cnt) =
      (duration_cast P nanoseconds_period cnt : ℚ) * nanoseconds_period.q := by
  have h0 : 0 ≤ durVal P cnt :=
    mul_nonneg (by exact_mod_cast hcnt) (Ratio.q_pos hn hd).le
  have h6 := dur6_nonneg (dur5_nonneg (dur4_nonneg (dur3_nonneg
    (dur2_nonneg (dur1_nonneg h0)))))
  have hdiv : ∀ x : ℚ, x / (1 / 1000000000) = x * 1000000000 := fun x => by
    field_simp
  have hns : nsPart P cnt = ⌊dur6 P cnt * 1000000000⌋ := by
    unfold nsPart
    rw [nanoseconds_period_q, hdiv,
        ratTrunc_eq_floor (mul_nonneg h6 (by norm_num))]
  have key : (cnt : ℚ) * P.q * 1000000000 =
      dur6 P cnt * 1000000000 +
      ((dPart P cnt * 86400000000000 + hPart P cnt * 3600000000000 +
        mPart P cnt * 60000000000 + sPart P cnt * 1000000000 +
        msPart P cnt * 1000000 + usPart P cnt * 1000 : Int) : ℚ) := by
    unfold dur6 dur5 dur4 dur3 dur2 dur1 durVal
    rw [days_period_q, hours_period_q, minutes_period_q, seconds_period_q,
        milliseconds_period_q, microseconds_period_q]
    push_cast
    ring
  have hfloor : ⌊(cnt : ℚ) * P.q * 1000000000⌋ =
      ⌊dur6 P cnt * 1000000000⌋ +
      (dPart P cnt * 86400000000000 + hPart P cnt * 3600000000000 +
       mPart P cnt * 60000000000 + sPart P cnt * 1000000000 +
       msPart P cnt * 1000000 + usPart P cnt * 1000) := by
    rw [key, Int.floor_add_int]
  have hsum : reassemble (SplitTimeElements P cnt) =
      (dPart P cnt : ℚ) * 86400 + (hPart P cnt : ℚ) * 3600 +
      (mPart P cnt : ℚ) * 60 + (sPart P cnt : ℚ) * 1 +
      (msPart P cnt : ℚ) * (1 / 1000) + (usPart P cnt : ℚ) * (1 / 1000000) +
      (nsPart P cnt : ℚ) * (1 / 1000000000) := by
    simp only [reassemble, SplitTimeElements]
    rw [days_period_q, hours_period_q, minutes_period_q, seconds_period_q,
        milliseconds_period_q, microseconds_period_q, nanoseconds_period_q]
  rw [hsum, duration_cast, nanoseconds_period_q]
  rw [show (cnt : ℚ) * P.q = durVal P cnt from rfl, hdiv,
      ratTrunc_eq_floor (mul_nonneg h0 (by norm_num))]
  rw [show durVal P cnt = (cnt : ℚ) * P.q from rfl, hfloor, hns]
  have key6 : dur6 P cnt = (cnt : ℚ) * P.q -
      ((dPart P cnt : ℚ) * 86400 + (hPart P cnt : ℚ) * 3600 +
       (mPart P cnt : ℚ) * 60 + (sPart P cnt : ℚ) * 1 +
       (msPart P cnt : ℚ) * (1 / 1000) + (usPart P cnt : ℚ) * (1 / 1000000)) := by
    unfold dur6 dur5 dur4 dur3 dur2 dur1 durVal
    rw [days_period_q, hours_period_q, minutes_period_q, seconds_period_q,
        milliseconds_period_q, microseconds_period_q]
    ring
  rw [key6]
  push_cast
  ring

/-- Witness for C1 at the nanosecond-resolution input of the concrete
rendering scenario. -/
theorem c1_witness :
    (0 : Int) ≤ 90061500250125 ∧
    reassemble (SplitTimeElements nanoseconds_period 90061500250125) =
      (duration_cast nanoseconds_period nanoseconds_period 90061500250125 : ℚ) *
        nanoseconds_period.q :=
  ⟨by decide,
   c1_split_reassembles nanoseconds_period 90061500250125 (by decide) (by decide)
     (by decide)⟩

lemma nanoseconds_q_pos : 0 < nanoseconds_period.q := by
  rw [nanoseconds_period_q]
  norm_num

lemma duration_cast_nonneg {src dst : Ratio} {cnt : Int}
    (hsrc : 0 < src.q) (hdst : 0 < dst.q) (h : 0 ≤ cnt) :
    0 ≤ duration_cast src dst cnt := by
  unfold duration_cast
  exact ratTrunc_nonneg
    (div_nonneg (mul_nonneg (by exact_mod_cast h) hsrc.le) hdst.le)

lemma runEvents_inv :
    ∀ (evs : List StopwatchEvent) (pt : ProcessTiming) (t now : Int),
      pt.startTime ≤ pt.endTime → pt.startTime ≤ t → pt.endTime ≤ t →
      List.Chain' (fun a b => a ≤ b) (t :: (evs.map eventTime ++ [now])) →
      (runEvents pt evs).startTime ≤ (runEvents pt evs).endTime ∧
      (runEvents pt evs).startTime ≤ now ∧ (runEvents pt evs).endTime ≤ now := by
  intro evs
  induction evs with
  | nil =>
    intro pt t now h1 h2 h3 hch
    rw [List.map_nil, List.nil_append, List.chain'_cons] at hch
    exact ⟨h1, le_trans h2 hch.1, le_trans h3 hch.1⟩
  | cons e evs ih =>
    intro pt t now h1 h2 h3 hch
    rw [List.map_cons, List.cons_append, List.chain'_cons] at hch
    have hte : t ≤ eventTime e := hch.1
    show (runEvents (applyEvent pt e) evs).startTime ≤ _ ∧ _
    cases e with
    | startEv s =>
      exact ih (ProcessTiming.start s pt) s now (le_refl s) (le_refl s)
        (le_refl s) hch.2
    | stopEv s =>
      exact ih (ProcessTiming.stop s pt) s now (le_trans h2 hte)
        (le_trans h2 hte) (le_refl s) hch.2

/-- C7: `elapsed()` returns `now − startTime` while running and
`endTime − startTime` when stopped, truncated toward zero to the
requested resolution; and for any event history whose clock readings
are non-decreasing (a monotonic clock) the result is never negative. -/
theorem c7_elapsed_nonneg_and_formula (t0 : Int) (evs : List StopwatchEvent)
    (now : Int) (P : Ratio) (hn : 0 < P.n) (hd : 0 < P.d)
    (hch : List.Chain' (fun a b => a ≤ b) (t0 :: (evs.map eventTime ++ [now]))) :
    0 ≤ ProcessTiming.elapsed P now (runEvents (ProcessTiming.construct t0) evs) ∧
    ProcessTiming.elapsed P now (runEvents (ProcessTiming.construct t0) evs) =
      ratTrunc ((((if (runEvents (ProcessTiming.construct t0) evs).ongoing
          then now - (runEvents (ProcessTiming.construct t0) evs).startTime
          else (runEvents (ProcessTiming.construct t0) evs).endTime -
            (runEvents (ProcessTiming.construct t0) evs).startTime) : Int) : ℚ) *
        nanoseconds_period.q / P.q) := by
  have hinv := runEvents_inv evs (ProcessTiming.construct t0) t0 now
    (le_refl t0) (le_refl t0) (le_refl t0) hch
  set pt := runEvents (ProcessTiming.construct t0) evs with hpt
  constructor
  · by_cases ho : pt.ongoing
    · rw [ProcessTiming.elapsed, if_pos ho]
      exact duration_cast_nonneg nanoseconds_q_pos (Ratio.q_pos hn hd)
        (by omega)
    · rw [ProcessTiming.elapsed, if_neg ho]
      exact duration_cast_nonneg nanoseconds_q_pos (Ratio.q_pos hn hd)
        (by omega)
  · by_cases ho : pt.ongoing
    · rw [ProcessTiming.elapsed, if_pos ho, if_pos ho, duration_cast]
    · rw [ProcessTiming.elapsed, if_neg ho, if_neg ho, duration_cast]

/-- Witness for C7: construct at 0, start at 2, stop at 5, query at 7. -/
theorem c7_witness :
    List.Chain' (fun a b => a ≤ b)
      (0 :: ([StopwatchEvent.startEv 2, StopwatchEvent.stopEv 5].map eventTime
        ++ [7])) ∧
    0 ≤ ProcessTiming.elapsed nanoseconds_period 7
      (runEvents (ProcessTiming.construct 0)
        [StopwatchEvent.startEv 2, StopwatchEvent.stopEv 5]) :=
  ⟨by simp [List.chain'_cons, List.chain'_singleton, eventTime],
   (c7_elapsed_nonneg_and_formula 0
     [StopwatchEvent.startEv 2, StopwatchEvent.stopEv 5] 7 nanoseconds_period
     (by decide) (by decide)
     (by simp [List.chain'_cons, List.chain'_singleton, eventTime])).1⟩

/-- Witness for C10 at a concrete `TimeElements` with negative and zero
fields. -/
theorem c10_witness :
    TimeElementsToString seconds_period ⟨-1, 0, 0, -5, 0, 0, -2⟩ = "" :=
  c10_nonpositive_counts_render_empty ⟨-1, 0, 0, -5, 0, 0, -2⟩ seconds_period
    (by decide) (by decide) (by decide) (by decide) (by decide) (by decide)
    (by decide)

end timings
